import Mathlib

/-!
# Verification of the clinic backend scheduling core

Shallow embedding, in Lean 4, of the conflict-resolution core of a
clinic-management REST backend written in TypeScript: slot-overlap
detection, appointment validation (day match, medic immutability,
confirmation monotonicity), the RUT national-id validator, the session
token registry, the generic field-validator machinery, and the
authorization gate.

Conventions of the embedding:
* Times of day are minutes after midnight (`Nat`); the SQL `time`
  comparisons on zero-padded `"HH:MM"` strings order exactly like these
  numbers.
* Calendar dates are `(year, month, day)` triples; the JavaScript
  expression `new Date(dateString).getUTCDay()` is embedded as a
  day-count computation on the proleptic Gregorian calendar.
* SQL queries over the relational store are embedded as list
  comprehensions over an explicit database record; `executeTakeFirst`
  truthiness becomes `List.any` of the join/where conditions.
* Validator results `{ok: true} | {ok: false, status, message}` become
  the inductive `VResult`.
-/

namespace Clinic

/-- Result of a field or global validator: `{ok: true}` or
`{ok: false, status, message}` as in `endpoints/validator.ts`. -/
inductive VResult where
  | ok : VResult
  | error (status : Nat) (message : String) : VResult
deriving DecidableEq, Repr

/-! ## Six-way overlap enumeration

`medics.ts`, `newScheduleSlotValidator` global validator: the candidate
slot `(s, e)` is compared against each stored row `(tStart, tEnd)` with
the disjunction of six clauses, in source order:
`start = s`, `end = e`, `start < s and end > s`, `start < e and end > e`,
`start > s and end < e`, `start < s and end > e`. -/
def sixWayNewSlot (tStart tEnd s e : Nat) : Bool :=
  (tStart == s) || (tEnd == e) ||
  (tStart < s && tEnd > s) ||
  (tStart < e && tEnd > e) ||
  (tStart > s && tEnd < e) ||
  (tStart < s && tEnd > e)

/-- Source: `patients.ts` / `medics.ts`, `newAppointmentValidator` overlap query:
the six clauses relating the stored appointment slot `t1 = (s1, e1)` to
the candidate slot `t2 = (s2, e2)`:
`t1.start = t2.start`, `t1.end = t2.end`,
`t1.start < t2.start and t2.start < t1.end`,
`t1.start < t2.end and t2.end < t1.end`,
`t2.start < t1.start and t1.end < t2.end`,
`t1.start < t2.start and t2.end < t1.end`. -/
def sixWayAppointment (s1 e1 s2 e2 : Nat) : Bool :=
  (s1 == s2) || (e1 == e2) ||
  (s1 < s2 && s2 < e1) ||
  (s1 < e2 && e2 < e1) ||
  (s2 < s1 && e1 < e2) ||
  (s1 < s2 && e2 < e1)

/-- The classic interval-overlap test `start1 < end2 AND start2 < end1`. -/
def classicOverlap (s1 e1 s2 e2 : Nat) : Bool :=
  decide (s1 < e2) && decide (s2 < e1)

/-! ## Data model

Rows of the relational store, as used by the conflict checkers.
`time_slot.end` is embedded as `endT` (`end` is reserved in Lean). -/

/-- A `time_slot` row: `{id, schedule_id, day, start, end, active}`. -/
structure TimeSlotRec where
  id : Nat
  scheduleId : Nat
  day : String
  start : Nat
  endT : Nat
  active : Bool
deriving DecidableEq, Repr

/-- A `medic` row, restricted to the columns the checkers read. -/
structure MedicRec where
  rut : String
  scheduleId : Nat
deriving DecidableEq, Repr

/-- A calendar date `YYYY-MM-DD`. -/
structure Date where
  year : Nat
  month : Nat
  day : Nat
deriving DecidableEq, Repr

/-- An `appointment` row. -/
structure AppointmentRec where
  id : Nat
  patientRut : String
  timeSlotId : Nat
  date : Date
  description : String
  confirmed : Bool
deriving DecidableEq, Repr

/-- The queryable store visible to the appointment validators. -/
structure ClinicDB where
  slots : List TimeSlotRec
  medics : List MedicRec
  appointments : List AppointmentRec
deriving DecidableEq, Repr

/-! ## Day-of-week computation

Both appointment validators derive a `mo`..`su` string from the
appointment date via JavaScript `new Date(dateString).getUTCDay()`
(0 = Sunday .. 6 = Saturday).  We embed the day count of the proleptic
Gregorian calendar; `jsGetUTCDay` is anchored so that 1970-01-01 maps
to 4 (Thursday), matching the JavaScript runtime. -/

def isLeapYear (y : Nat) : Bool :=
  (y % 4 == 0 && y % 100 != 0) || y % 400 == 0

/-- Days in the months strictly before month `m` (1-based). -/
def monthOffset (leap : Bool) (m : Nat) : Nat :=
  (match m with
    | 1 => 0 | 2 => 31 | 3 => 59 | 4 => 90 | 5 => 120 | 6 => 151
    | 7 => 181 | 8 => 212 | 9 => 243 | 10 => 273 | 11 => 304 | _ => 334)
  + (if leap && m ≥ 3 then 1 else 0)

/-- Number of days from 0001-01-01 (day 0) to the given date. -/
def dayNumber (d : Date) : Nat :=
  365 * (d.year - 1) +
    ((d.year - 1) / 4 - (d.year - 1) / 100 + (d.year - 1) / 400) +
    monthOffset (isLeapYear d.year) d.month + (d.day - 1)

/-- JavaScript `getUTCDay`: 0 = Sunday .. 6 = Saturday. -/
def jsGetUTCDay (d : Date) : Nat :=
  (dayNumber d + 1) % 7

/-- Source: `patients.ts` day array: `["su","mo","tu","we","th","fr","sa"]`. -/
def daysPatients : List String :=
  ["su", "mo", "tu", "we", "th", "fr", "sa"]

/-- Source: `medics.ts` day array: `["mo","tu","we","th","fr","sa","su"]`. -/
def daysMedics : List String :=
  ["mo", "tu", "we", "th", "fr", "sa", "su"]

/-- Source: `patients.ts`: `days[new Date(date).getUTCDay()]`. -/
def patientComputedDay (d : Date) : String :=
  daysPatients.getD (jsGetUTCDay d) ""

/-- Source: `medics.ts`: `days[(new Date(date).getUTCDay() + 1) % 7]`. -/
def medicComputedDay (d : Date) : String :=
  daysMedics.getD ((jsGetUTCDay d + 1) % 7) ""

/-- The actual day-of-week name of a date, `mo`-based:
day 0 (0001-01-01) is a Monday in the proleptic Gregorian calendar. -/
def weekdayName (d : Date) : String :=
  daysMedics.getD (dayNumber d % 7) ""

/-- The day comparison of the patient-side appointment validator. -/
def patientsDayMatchCheck (slotDay : String) (date : Date) : Bool :=
  slotDay == patientComputedDay date

/-- The day comparison of the medic-side appointment validator. -/
def medicsDayMatchCheck (slotDay : String) (date : Date) : Bool :=
  slotDay == medicComputedDay date

/-! ## Slot overlap checker (`medics.ts`)

`newScheduleSlotValidator` global validator: conflict iff some active
slot on the same schedule and day satisfies the six-way disjunction. -/

def slotOverlapQuery (slots : List TimeSlotRec) (scheduleId : Nat)
    (day : String) (s e : Nat) : Bool :=
  slots.any fun t =>
    t.scheduleId == scheduleId && t.day == day && t.active &&
      sixWayNewSlot t.start t.endT s e

/-- Global validator of `newScheduleSlotValidator`. -/
def newScheduleSlotGlobal (slots : List TimeSlotRec) (scheduleId : Nat)
    (day : String) (s e : Nat) : VResult :=
  if slotOverlapQuery slots scheduleId day s e then
    .error 409 "Time slot overlaps with another."
  else .ok

/-- PATCH body for a schedule slot (all fields optional). -/
structure ScheduleSlotUpdateBody where
  day : Option String := none
  start : Option Nat := none
  endT : Option Nat := none
deriving DecidableEq, Repr

/-- Global validator of `scheduleSlotUpdateValidator`
(`medics.ts`): merge the body over the stored slot, run the overlap
query (note: with no exclusion of the slot being updated), then reject
if any appointment references the slot. -/
def scheduleSlotUpdateGlobal (slots : List TimeSlotRec)
    (appointments : List AppointmentRec) (timeSlot : TimeSlotRec)
    (body : ScheduleSlotUpdateBody) : VResult :=
  let day := body.day.getD timeSlot.day
  let s := body.start.getD timeSlot.start
  let e := body.endT.getD timeSlot.endT
  if slotOverlapQuery slots timeSlot.scheduleId day s e then
    .error 409 "Time slot overlaps with another."
  else if appointments.any (fun a => a.timeSlotId == timeSlot.id) then
    .error 409 "Time slot has appointments associated."
  else .ok

/-! ## Appointment validators -/

/-- The `doesOverlap` query shared by both `newAppointmentValidator`
global validators: some appointment on the same date, with the same
patient or the same medic (resolved through slot to schedule to medic),
whose slot time range satisfies the six-way disjunction against the
candidate slot.  The SQL inner joins become nested `List.any`. -/
def appointmentOverlapQuery (db : ClinicDB) (patientRut : String)
    (date : Date) (newSlotId : Nat) : Bool :=
  db.appointments.any fun a =>
    db.slots.any fun t1 =>
      t1.id == a.timeSlotId &&
      (db.slots.any fun t2 =>
        t2.id == newSlotId &&
        (db.medics.any fun m1 =>
          m1.scheduleId == t1.scheduleId &&
          (db.medics.any fun m2 =>
            m2.scheduleId == t2.scheduleId &&
            (a.date == date) &&
            (a.patientRut == patientRut || m1.rut == m2.rut) &&
            sixWayAppointment t1.start t1.endT t2.start t2.endT)))

/-- A point in time: date plus minutes after midnight. -/
structure Instant where
  date : Date
  time : Nat
deriving DecidableEq, Repr

/-- Source: `unix_timestamp(date + " " + start) < unix_timestamp()` comparison
of the patient-side validator, on a minute scale. -/
def dateTimeBefore (d : Date) (m : Nat) (now : Instant) : Bool :=
  dayNumber d * 1440 + m < dayNumber now.date * 1440 + now.time

/-- Global validator of the patient-side `newAppointmentValidator`:
day match, not-yet-started, then the overlap query.  When the slot row
is absent the destructuring default makes both flags `undefined`, whose
template coercion passes both string comparisons, so only the overlap
query runs. -/
def patientsNewAppointmentGlobal (db : ClinicDB) (now : Instant)
    (patientRut : String) (date : Date) (timeSlotId : Nat) : VResult :=
  match db.slots.find? (fun t => t.id == timeSlotId) with
  | none =>
      if appointmentOverlapQuery db patientRut date timeSlotId then
        .error 409 "Appointment overlaps with another."
      else .ok
  | some t =>
      if !patientsDayMatchCheck t.day date then
        .error 409 "Appointment day and time slot day do not match."
      else if dateTimeBefore date t.start now then
        .error 409 "Time slot has already started."
      else if appointmentOverlapQuery db patientRut date timeSlotId then
        .error 409 "Appointment overlaps with another."
      else .ok

/-- Global validator of the medic-side `newAppointmentValidator`:
same structure, but the day string is computed with the off-by-two
index into the `mo`-first array, `current_date() = date AND start <
current_time()` is the started test, and an absent slot row fails the
`!doesDayMatch` test (negation of `undefined`). -/
def medicsNewAppointmentGlobal (db : ClinicDB) (now : Instant)
    (patientRut : String) (date : Date) (timeSlotId : Nat) : VResult :=
  match db.slots.find? (fun t => t.id == timeSlotId) with
  | none => .error 409 "Appointment day and time slot day do not match."
  | some t =>
      if !medicsDayMatchCheck t.day date then
        .error 409 "Appointment day and time slot day do not match."
      else if now.date == date && t.start < now.time then
        .error 409 "Time slot has already started."
      else if appointmentOverlapQuery db patientRut date timeSlotId then
        .error 409 "Appointment overlaps with another."
      else .ok

/-! ## Appointment update (PATCH) validators

PATCH bodies carry optional fields; an absent JSON key is `none`.
Field validators run in declaration order (`date`, `description`,
`timeSlotId`, `confirmed`), each passing on `undefined` and otherwise
delegating to the corresponding creation validator; then the global
validator runs. -/

/-- A PATCH body for an appointment. -/
structure AppointmentUpdateBody where
  date : Option Date := none
  timeSlotId : Option Nat := none
  description : Option String := none
  confirmed : Option Bool := none
deriving DecidableEq, Repr

/-- The four columns of the appointment being updated, as selected by
the update handlers (`Required<AppointmentUpdate>`). -/
structure AppointmentFields where
  date : Date
  timeSlotId : Nat
  description : String
  confirmed : Bool
deriving DecidableEq, Repr

/-- Source: `date` field validator of `newAppointmentValidator`: shape already
captured by the `Date` type; the value must not lie before today. -/
def dateFieldCheck (today : Date) (v : Option Date) : VResult :=
  match v with
  | none => .ok
  | some d =>
      if dayNumber today ≤ dayNumber d then .ok
      else .error 400 "Invalid date."

/-- Source: `description` field validator: a truthy (nonempty) string. -/
def descriptionFieldCheck (v : Option String) : VResult :=
  match v with
  | none => .ok
  | some s => if s == "" then .error 400 "Invalid description." else .ok

/-- Source: `timeSlotId` field validator: positive and referencing an active
`time_slot` row. -/
def timeSlotIdFieldCheck (slots : List TimeSlotRec) (v : Option Nat) : VResult :=
  match v with
  | none => .ok
  | some i =>
      if i == 0 then .error 400 "Invalid timeSlotId."
      else if slots.any (fun t => t.id == i && t.active) then .ok
      else .error 400 "Invalid timeSlotId."

/-- Source: `confirmed` field validator (`patients.ts` and `medics.ts`): valid
iff absent or the boolean `true`; an explicit `false` is a 409
conflict, not a 400 validation error. -/
def confirmedFieldCheck (v : Option Bool) : VResult :=
  match v with
  | none => .ok
  | some true => .ok
  | some false =>
      .error 409 "Appointment confirmed status can only be changed from false to true."

/-- The `didMedicChange` query of the patient-side
`appointmentUpdateValidator`: joins over all `appointment` rows (the
query carries no condition tying `a` to the appointment being updated),
`t1` the row slot, `t2` the new slot, `m1`/`m2` the medics of their
schedules, where `m1.rut != m2.rut`. -/
def didMedicChangeQuery (db : ClinicDB) (newSlotId : Nat) : Bool :=
  db.appointments.any fun a =>
    db.slots.any fun t1 =>
      t1.id == a.timeSlotId &&
      (db.slots.any fun t2 =>
        t2.id == newSlotId &&
        (db.medics.any fun m1 =>
          m1.scheduleId == t1.scheduleId &&
          (db.medics.any fun m2 =>
            m2.scheduleId == t2.scheduleId && m1.rut != m2.rut)))

/-- The medic owning a slot, resolved through its schedule. -/
def medicOfSlot (db : ClinicDB) (slotId : Nat) : Option String :=
  (db.slots.find? (fun t => t.id == slotId)).bind fun t =>
    (db.medics.find? (fun m => m.scheduleId == t.scheduleId)).map (fun m => m.rut)

/-- Global validator of the patient-side `appointmentUpdateValidator`:
pass when `timeSlotId` is absent, falsy, or unchanged; otherwise reject
when `didMedicChange` finds a row. -/
def patientsAppointmentUpdateGlobal (db : ClinicDB)
    (body : AppointmentUpdateBody) (old : AppointmentFields) : VResult :=
  match body.timeSlotId with
  | none => .ok
  | some tid =>
      if tid == 0 || tid == old.timeSlotId then .ok
      else if didMedicChangeQuery db tid then
        .error 409 "Cannot change assigned medic."
      else .ok

/-- Global validator of the medic-side `appointmentUpdateValidator`:
delegates to the creation global validator on the merged object
`{...oldAppointment, ...appointment, patientRut}` (no medic-change
check). -/
def medicsAppointmentUpdateGlobal (db : ClinicDB) (now : Instant)
    (body : AppointmentUpdateBody) (old : AppointmentFields)
    (patientRut : String) : VResult :=
  medicsNewAppointmentGlobal db now patientRut
    (body.date.getD old.date) (body.timeSlotId.getD old.timeSlotId)

/-- Full run of the patient-side `appointmentUpdateValidator.validate`:
field validators in declaration order with first failure returned, then
the global validator. -/
def patientsAppointmentUpdateValidate (db : ClinicDB) (today : Date)
    (body : AppointmentUpdateBody) (old : AppointmentFields) : VResult :=
  match dateFieldCheck today body.date with
  | .error st m => .error st m
  | .ok =>
  match descriptionFieldCheck body.description with
  | .error st m => .error st m
  | .ok =>
  match timeSlotIdFieldCheck db.slots body.timeSlotId with
  | .error st m => .error st m
  | .ok =>
  match confirmedFieldCheck body.confirmed with
  | .error st m => .error st m
  | .ok => patientsAppointmentUpdateGlobal db body old

/-- The row the UPDATE statement produces: absent body fields are
skipped by the query builder, present ones overwrite. -/
def applyAppointmentUpdate (old : AppointmentFields)
    (body : AppointmentUpdateBody) : AppointmentFields :=
  { date := body.date.getD old.date,
    timeSlotId := body.timeSlotId.getD old.timeSlotId,
    description := body.description.getD old.description,
    confirmed := body.confirmed.getD old.confirmed }

/-- HTTP status of the patient-side `updateAppointment` handler after
the appointment row has been fetched: a validation failure returns its
status; an update changing no column returns 304; otherwise 204. -/
def patientsUpdateAppointmentStatus (db : ClinicDB) (today : Date)
    (old : AppointmentFields) (body : AppointmentUpdateBody) : Nat :=
  match patientsAppointmentUpdateValidate db today body old with
  | .error st _ => st
  | .ok => if applyAppointmentUpdate old body == old then 304 else 204

/-! ## RUT validator (`db.ts` / `index.ts`)

`isValidRut` embeds the source function.  `rutSpecValid` states the
specification wording independently (conjunction of shape, magnitude
and checksum conditions, with the explicit 10 to K and 11 to 0
mapping); the equivalence is proved below. -/

/-- Source: `rutValidationSequence = [2, 3, 4, 5, 6, 7]`. -/
def rutSeq : List Nat := [2, 3, 4, 5, 6, 7]

/-- Source: `split("-")` at the character level (the string library splitter
does not reduce definitionally, so the embedding splits the character
list itself). -/
def splitOnDash : List Char → List (List Char)
  | [] => [[]]
  | c :: rest =>
      if c == '-' then [] :: splitOnDash rest
      else
        match splitOnDash rest with
        | [] => [[c]]
        | h :: t => (c :: h) :: t

/-- JavaScript unary plus on an all-digit string (decimal value). -/
def digitsToNat (cs : List Char) : Nat :=
  cs.foldl (fun acc c => acc * 10 + (c.toNat - 48)) 0

def isRutVerifierChar (c : Char) : Bool :=
  c.isDigit || c == 'K' || c == 'k'

/-- The regular expression test `/^\d{7,}-[\dk]$/i`: exactly one dash,
at least seven digits before it, one digit or `K`/`k` after it. -/
def rutShapeTest (s : String) : Bool :=
  match splitOnDash s.data with
  | [digits, vd] =>
      decide (7 ≤ digits.length) && digits.all Char.isDigit &&
      vd.length == 1 && vd.all isRutVerifierChar
  | _ => false

/-- The `reduce` over the reversed digit list:
`acc + digit * rutValidationSequence[i % 6]`. -/
def rutSumAux : List Char → Nat → Nat
  | [], _ => 0
  | c :: rest, i => (c.toNat - 48) * rutSeq.getD (i % 6) 0 + rutSumAux rest (i + 1)

/-- Source: `isValidRut` transcribed from the source.  The JavaScript
`11 - sum + Math.trunc(sum / 11) * 11` equals `11 - sum % 11` (a value
in 1..11, so the `Nat` subtraction never truncates);
`.toUpperCase()` is the character-wise upper-casing of the verifier. -/
def isValidRut (rut : String) : Bool :=
  if rutShapeTest rut then
    match splitOnDash rut.data with
    | [digits, vd] =>
        if digitsToNat digits < 1000000 then false
        else
          let sum := rutSumAux digits.reverse 0
          let verificationNumber := 11 - sum % 11
          let verificationDigit :=
            if verificationNumber == 10 then "K"
            else toString (verificationNumber % 11)
          verificationDigit == String.mk (vd.map Char.toUpper)
    | _ => false
  else false

/-- Specification checksum: weights 2,3,4,5,6,7 repeating, applied
right-to-left over the numeric digits, summed by position. -/
def rutSpecSum (digits : List Char) : Nat :=
  (digits.reverse.enum).foldl
    (fun acc p => acc + (p.2.toNat - 48) * rutSeq.getD (p.1 % 6) 0) 0

/-- Specification check digit: `11 - (sum mod 11)`, with 10 mapped to
`"K"` and 11 mapped to `"0"`, else the digit itself. -/
def rutSpecCheckDigit (digits : List Char) : String :=
  let raw := 11 - rutSpecSum digits % 11
  if raw == 10 then "K" else if raw == 11 then "0" else toString raw

/-- The specification statement: shape, numeric portion of at least
1,000,000, and check digit agreement (case-insensitive on `K`). -/
def rutSpecValid (s : String) : Bool :=
  match splitOnDash s.data with
  | [digits, vd] =>
      decide (7 ≤ digits.length) && digits.all Char.isDigit &&
      vd.length == 1 && vd.all isRutVerifierChar &&
      decide (1000000 ≤ digitsToNat digits) &&
      (String.mk (vd.map Char.toUpper) == rutSpecCheckDigit digits)
  | _ => false

/-! ## Generic field-validator machinery (`endpoints/validator.ts`)

`Validator.validate` iterates the declared entries in order; an entry
marked `required` whose value is falsy short-circuits with
`400 Missing <key>.`; otherwise the entry validator runs and its first
failure is returned. -/

/-- A JSON value as seen by a validator (JavaScript truthiness model). -/
inductive JSValue where
  | undef : JSValue
  | null : JSValue
  | bool (b : Bool) : JSValue
  | num (n : Int) : JSValue
  | str (s : String) : JSValue
deriving DecidableEq, Repr

/-- JavaScript truthiness: `undefined`, `null`, `false`, `0` and `""`
are falsy. -/
def truthy : JSValue → Bool
  | .undef => false
  | .null => false
  | .bool b => b
  | .num n => n != 0
  | .str s => s != ""

/-- A parsed validator entry `{required, validate}`. -/
structure FieldValidator where
  required : Bool
  validate : JSValue → String → VResult

/-- The per-field loop of `Validator.validate`. -/
def validateFields (object : String → JSValue) :
    List (String × FieldValidator) → VResult
  | [] => .ok
  | (k, e) :: rest =>
      if e.required && !truthy (object k) then
        .error 400 ("Missing " ++ k ++ ".")
      else
        match e.validate (object k) k with
        | .ok => validateFields object rest
        | .error st m => .error st m

/-- Source: `Validator.validate`: the per-field loop, then the global
validator. -/
def runValidator (fields : List (String × FieldValidator))
    (globalValidator : (String → JSValue) → VResult)
    (object : String → JSValue) : VResult :=
  match validateFields object fields with
  | .ok => globalValidator object
  | .error st m => .error st m

/-- An entry passes on `object`: the required check does not fire and
its validator returns ok. -/
def entryPasses (object : String → JSValue) (p : String × FieldValidator) : Prop :=
  (p.2.required && !truthy (object p.1)) = false ∧
    p.2.validate (object p.1) p.1 = .ok

/-! ## Session token registry (`tokens.ts`) -/

/-- Source: `TokenType` enum of `tokens.ts`. -/
inductive TokenType where
  | invalid : TokenType
  | patient : TokenType
  | medic : TokenType
  | admin : TokenType
deriving DecidableEq, Repr

/-- Source: `employee.type` enum. -/
inductive EmployeeKind where
  | medic : EmployeeKind
  | adminStaff : EmployeeKind
deriving DecidableEq, Repr

/-- A `person` row joined against `patient` and `employee` membership,
as read by the token role classification query. -/
structure Person where
  id : Nat
  isPatient : Bool
  employeeKind : Option EmployeeKind
  sessionToken : Option String
deriving DecidableEq, Repr

/-- The SQL `case` classification: no patient and no employee row is
invalid; no employee row is a patient; employee of type medic is a
medic; any other employee is an admin. -/
def personTokenType (p : Person) : TokenType :=
  match p.employeeKind with
  | some .medic => .medic
  | some .adminStaff => .admin
  | none => if p.isPatient then .patient else .invalid

/-- The in-memory `tokens` map plus the persistent `person` store. -/
structure TokenState where
  registry : List (String × TokenType)
  persons : List Person
deriving DecidableEq, Repr

def tokensHas (reg : List (String × TokenType)) (t : String) : Bool :=
  reg.any (fun e => e.1 == t)

/-- The `do { token = randomBytes(64).toString("base64url") } while
(tokens.has(token))` loop, with the random stream made explicit: the
first candidate not already registered is chosen. -/
def pickFreshToken : List String → List (String × TokenType) → Option String
  | [], _ => none
  | c :: rest, reg =>
      if tokensHas reg c then pickFreshToken rest reg else some c

/-- Source: `generateToken(id)`: pick a fresh token, persist it as the
session token column of the subject, classify the role of the subject, register the
mapping, return the token.  A missing `person` row makes the role
query result empty and the source dereference of `result[0].type`
fail, embedded as `none`. -/
def generateToken (candidates : List String) (id : Nat)
    (st : TokenState) : Option (String × TokenState) :=
  match pickFreshToken candidates st.registry with
  | none => none
  | some token =>
      match st.persons.find? (fun p => p.id == id) with
      | none => none
      | some p =>
          let persons := st.persons.map fun q =>
            if q.id == id then { q with sessionToken := some token } else q
          some (token,
            { registry := (token, personTokenType p) :: st.registry,
              persons := persons })

/-- Source: `doesTokenExist(token)`. -/
def doesTokenExist (st : TokenState) (t : String) : Bool :=
  tokensHas st.registry t

/-- Source: `getTokenType(token)`: the registry lookup. -/
def getTokenType (st : TokenState) (t : String) : Option TokenType :=
  (st.registry.find? (fun e => e.1 == t)).map (fun e => e.2)

/-- Source: `revokeToken(token)`: when the token is registered, clear the
persisted `session_token` of every person holding it and delete the
registry entry; otherwise do nothing. -/
def revokeToken (t : String) (st : TokenState) : TokenState :=
  if doesTokenExist st t then
    { registry := st.registry.filter (fun e => !(e.1 == t)),
      persons := st.persons.map fun p =>
        if p.sessionToken == some t then { p with sessionToken := none } else p }
  else st

/-! ## Authorization gate (`endpoints/base.ts` and the medic
self-scoped endpoints of `medics.ts`) -/

/-- The identity attached to a bearer token. -/
structure TokenData where
  token : String
  rut : String
  type : TokenType
deriving DecidableEq, Repr

/-- Modelled from the spec: the registry lookup `getTokenData` called
by `Endpoint.getToken`.  The `tokens.ts` variant defining it (mapping
a token to `{token, rut, type}`) is not among the sources — only its
callers are; section 4.2 of the specification describes it as
`lookup(token) -> identity | absent`, an O(1) map lookup. -/
def getTokenData (reg : List TokenData) (t : String) : Option TokenData :=
  reg.find? (fun e => e.token == t)

def isBase64UrlChar (c : Char) : Bool :=
  c.isAlphanum || c == '-' || c == '_'

/-- The test `/^Bearer [A-Za-z0-9_-]{86}$/`: the literal `Bearer `
followed by exactly 86 base64url characters (93 characters in all),
checked at the character level. -/
def bearerShapeTest (s : String) : Bool :=
  "Bearer ".data.isPrefixOf s.data && s.data.length == 93 &&
    (s.data.drop 7).all isBase64UrlChar

/-- Source: `Endpoint.getToken`: default the missing header to `""`, test the
bearer shape, then look the 86-character suffix (`slice(7)`) up in the
registry. -/
def getToken (reg : List TokenData) (authHeader : Option String) :
    Option TokenData :=
  let bearerToken := authHeader.getD ""
  if bearerShapeTest bearerToken then
    getTokenData reg (String.mk (bearerToken.data.drop 7))
  else none

/-- Source: `requiresAuthorization: [TokenType.MEDIC, TokenType.ADMIN]` of the
medic self-scoped endpoints. -/
def medicEndpointRoles : List TokenType := [.medic, .admin]

/-- The pipeline shared by every `/medics/:rut/...` handler: the
decorator rejects a missing token or one whose role is outside the
required set with 401; the handler prelude then rejects an invalid
path rut with 400 and a medic token whose rut differs from the path
rut with 401, before any state-changing work (`handler`) runs.  The
state type is abstract; every rejection returns it unchanged. -/
def guardedMedicSelfEndpoint {σ : Type} (reg : List TokenData)
    (pathRut : String) (authHeader : Option String)
    (handler : TokenData → σ → Nat × σ) (st : σ) : Nat × σ :=
  match getToken reg authHeader with
  | none => (401, st)
  | some tok =>
      if !(medicEndpointRoles.contains tok.type) then (401, st)
      else if !(isValidRut pathRut) then (400, st)
      else if tok.type == .medic && tok.rut != pathRut then (401, st)
      else handler tok st

/-! ## Concrete scenario inputs -/

/-- A schedule with a single active slot, Monday 08:00 to 08:30
(minutes 480 to 510). -/
def slotMo0800 : TimeSlotRec := ⟨1, 1, "mo", 480, 510, true⟩

/-- Store for the medic-change scenario: medic `M1` owns schedule 1
with slots 1 and 2, medic `M2` owns schedule 2 with slots 3 and 4;
appointment 1 (patient `P`) sits on slot 1, appointment 2 (patient
`Q`) on slot 3. -/
def dbMedicChange : ClinicDB :=
  { slots :=
      [⟨1, 1, "we", 480, 510, true⟩, ⟨2, 1, "we", 600, 630, true⟩,
       ⟨3, 2, "we", 480, 510, true⟩, ⟨4, 2, "we", 600, 630, true⟩],
    medics := [⟨"M1", 1⟩, ⟨"M2", 2⟩],
    appointments :=
      [⟨1, "P", 1, ⟨2024, 1, 1⟩, "a", false⟩,
       ⟨2, "Q", 3, ⟨2024, 1, 1⟩, "b", false⟩] }

/-- The stored fields of appointment 1 of `dbMedicChange`. -/
def oldApptMedicChange : AppointmentFields := ⟨⟨2024, 1, 1⟩, 1, "a", false⟩

/-- An 86-character base64url token value. -/
def tokenA : String :=
  "aaaaaaaaaaaaaaaaaaaaaaaaaaaaaaaaaaaaaaaaaaaaaaaaaaaaaaaaaaaaaaaaaaaaaaaaaaaaaaaaaaaaaa"

/-! # Theorems -/

theorem sixWay_slot_eq_appointment (s1 e1 s2 e2 : Nat) :
    sixWayNewSlot s1 e1 s2 e2 = sixWayAppointment s1 e1 s2 e2 := by
  simp [sixWayNewSlot, sixWayAppointment, Nat.lt_iff_add_one_le]

/-- Under the invariant `start < end` for both ranges, the six-way
enumeration coincides with the classic interval-overlap test. -/
theorem sixWay_eq_classic (s1 e1 s2 e2 : Nat)
    (h1 : s1 < e1) (h2 : s2 < e2) :
    sixWayAppointment s1 e1 s2 e2 = classicOverlap s1 e1 s2 e2 := by
  rw [Bool.eq_iff_iff]
  simp only [sixWayAppointment, classicOverlap, Bool.or_eq_true, Bool.and_eq_true,
    beq_iff_eq, decide_eq_true_eq]
  omega

/-- The su-based array indexed by `getUTCDay` names the true weekday. -/
theorem patientComputedDay_eq_weekdayName (d : Date) :
    patientComputedDay d = weekdayName d := by
  unfold patientComputedDay weekdayName jsGetUTCDay
  have h7 : dayNumber d % 7 < 7 := Nat.mod_lt _ (by norm_num)
  have hshift : (dayNumber d + 1) % 7 = (dayNumber d % 7 + 1) % 7 := by omega
  rw [hshift]
  set r := dayNumber d % 7 with hr
  interval_cases r <;> rfl

theorem foldl_add_extract (g : Nat × Char → Nat) (l : List (Nat × Char)) (a : Nat) :
    l.foldl (fun acc p => acc + g p) a = a + l.foldl (fun acc p => acc + g p) 0 := by
  induction l generalizing a with
  | nil => simp
  | cons hd tl ih =>
      simp only [List.foldl_cons]
      rw [ih, ih (0 + g hd)]
      omega

theorem rutSumAux_eq_spec (l : List Char) (i : Nat) :
    rutSumAux l i =
      (List.enumFrom i l).foldl
        (fun acc p => acc + (p.2.toNat - 48) * rutSeq.getD (p.1 % 6) 0) 0 := by
  induction l generalizing i with
  | nil => rfl
  | cons c rest ih =>
      simp only [rutSumAux, List.enumFrom, List.foldl_cons]
      rw [foldl_add_extract, ih]
      omega

theorem rut_digit_mapping (sum : Nat) :
    (if (11 - sum % 11 : Nat) == 10 then "K" else toString ((11 - sum % 11) % 11)) =
      (if (11 - sum % 11 : Nat) == 10 then "K"
        else if (11 - sum % 11 : Nat) == 11 then "0" else toString (11 - sum % 11)) := by
  have h : sum % 11 < 11 := Nat.mod_lt _ (by norm_num)
  set r := sum % 11 with hr
  interval_cases r <;> rfl

theorem rutSum_eq_spec (d : List Char) :
    rutSumAux d.reverse 0 = rutSpecSum d := by
  rw [rutSumAux_eq_spec]
  rfl

/-- C1: the slot-overlap check reports a conflict exactly when some
active slot on the given schedule and day satisfies the six-way
disjunction; the appointment-side enumeration is the same predicate;
under the invariant `start < end` for both ranges the enumeration
equals the classic interval test `start1 < end2 AND start2 < end1`;
against a `mo 08:00-08:30` slot, creating `mo 08:15-08:45` conflicts
while the touching `mo 08:30-09:00` does not. -/
theorem c1_slot_overlap_check :
    (∀ (slots : List TimeSlotRec) (schedId : Nat) (day : String) (s e : Nat),
        newScheduleSlotGlobal slots schedId day s e =
            VResult.error 409 "Time slot overlaps with another." ↔
          ∃ t ∈ slots, t.scheduleId = schedId ∧ t.day = day ∧
            t.active = true ∧ sixWayNewSlot t.start t.endT s e = true) ∧
    (∀ s1 e1 s2 e2 : Nat, s1 < e1 → s2 < e2 →
        sixWayNewSlot s1 e1 s2 e2 = classicOverlap s1 e1 s2 e2) ∧
    (∀ s1 e1 s2 e2 : Nat,
        sixWayNewSlot s1 e1 s2 e2 = sixWayAppointment s1 e1 s2 e2) ∧
    newScheduleSlotGlobal [slotMo0800] 1 "mo" 495 525 =
      VResult.error 409 "Time slot overlaps with another." ∧
    newScheduleSlotGlobal [slotMo0800] 1 "mo" 510 540 = VResult.ok ∧
    sixWayNewSlot 480 510 510 540 = false := by
  refine ⟨?_, ?_, sixWay_slot_eq_appointment, by decide, by decide, by decide⟩
  · intro slots schedId day s e
    by_cases h : slotOverlapQuery slots schedId day s e = true
    · simp only [newScheduleSlotGlobal, h, if_true]
      constructor
      · intro _
        rw [slotOverlapQuery, List.any_eq_true] at h
        rcases h with ⟨t, ht, hcond⟩
        simp only [Bool.and_eq_true, beq_iff_eq] at hcond
        exact ⟨t, ht, by tauto, by tauto, by tauto, by tauto⟩
      · intro _; trivial
    · have hf : slotOverlapQuery slots schedId day s e = false := by
        revert h; cases slotOverlapQuery slots schedId day s e <;> simp
      simp only [newScheduleSlotGlobal, hf, Bool.false_eq_true, if_false]
      constructor
      · intro hh; cases hh
      · rintro ⟨t, ht, h1, h2, h3, h4⟩
        exfalso
        apply h
        rw [slotOverlapQuery, List.any_eq_true]
        exact ⟨t, ht, by simp [h1, h2, h3, h4]⟩
  · exact fun s1 e1 s2 e2 h1 h2 =>
      (sixWay_slot_eq_appointment s1 e1 s2 e2).trans
        (sixWay_eq_classic s1 e1 s2 e2 h1 h2)

/-- C1 witness: the hypothesized conjunct instantiated at the scenario
ranges 08:00-08:30 and 08:15-08:45. -/
theorem c1_slot_overlap_check_witness :
    (480 < 510 ∧ 495 < 525) ∧
      sixWayNewSlot 480 510 495 525 = classicOverlap 480 510 495 525 :=
  ⟨⟨by decide, by decide⟩,
    c1_slot_overlap_check.2.1 480 510 495 525 (by decide) (by decide)⟩

/-- C2 (code bug in `medics.ts`): the patient-side day comparison
passes exactly when the slot day equals the true weekday of the date,
but the medic-side comparison indexes the `mo`-first array with
`(getUTCDay + 1) % 7`, naming the weekday two days later: 2024-01-01
is a Monday, yet the medic-side check rejects a `mo` slot for that
date (and its global validator returns the day-mismatch 409) while
accepting a `we` slot. -/
theorem c2_day_match_check :
    (∀ (slotDay : String) (d : Date),
        patientsDayMatchCheck slotDay d = (slotDay == weekdayName d)) ∧
    weekdayName ⟨2024, 1, 1⟩ = "mo" ∧
    medicsDayMatchCheck "mo" ⟨2024, 1, 1⟩ = false ∧
    medicsDayMatchCheck "we" ⟨2024, 1, 1⟩ = true ∧
    medicsNewAppointmentGlobal ⟨[slotMo0800], [⟨"M1", 1⟩], []⟩
        ⟨⟨2023, 12, 25⟩, 0⟩ "P" ⟨2024, 1, 1⟩ 1 =
      VResult.error 409 "Appointment day and time slot day do not match." := by
  refine ⟨?_, by decide, by decide, by decide, by decide⟩
  intro slotDay d
  unfold patientsDayMatchCheck
  rw [patientComputedDay_eq_weekdayName]

/-- C4 (code bug in `patients.ts`): slots 1 and 2 belong to the same
medic `M1`, yet moving appointment 1 from slot 1 to slot 2 is rejected
with the medic-change conflict, because the `didMedicChange` query is
not restricted to the appointment being updated and finds the
unrelated appointment 2 of medic `M2`; meanwhile the medic-side update
validator accepts moving the same appointment to slot 4 of the
different medic `M2` without any medic-change rejection. -/
theorem c4_medic_change_check :
    medicOfSlot dbMedicChange 1 = some "M1" ∧
    medicOfSlot dbMedicChange 2 = some "M1" ∧
    patientsAppointmentUpdateGlobal dbMedicChange ⟨none, some 2, none, none⟩
        oldApptMedicChange = VResult.error 409 "Cannot change assigned medic." ∧
    medicOfSlot dbMedicChange 4 = some "M2" ∧
    medicsAppointmentUpdateGlobal dbMedicChange ⟨⟨2023, 12, 25⟩, 0⟩
        ⟨none, some 4, none, none⟩ oldApptMedicChange "P" = VResult.ok := by
  decide

/-- C5 (code bug in `medics.ts`): updating only the end of the single
slot on a schedule (no other slot, no appointment attached) is
rejected with the overlap conflict, because the update-time overlap
query does not exclude the slot being updated and the merged range
matches the slot itself on the `start = start` clause. -/
theorem c5_slot_update_self_conflict :
    scheduleSlotUpdateGlobal [slotMo0800] [] slotMo0800 ⟨none, none, some 540⟩ =
      VResult.error 409 "Time slot overlaps with another." ∧
    (∀ t ∈ [slotMo0800], t.id = slotMo0800.id) ∧
    ([] : List AppointmentRec).any (fun a => a.timeSlotId == slotMo0800.id) = false := by
  decide

/-- C6: under the invariant `start < end` for both ranges, the six-way
overlap enumeration is symmetric. -/
theorem c6_overlap_symmetric (s1 e1 s2 e2 : Nat)
    (h1 : s1 < e1) (h2 : s2 < e2) :
    sixWayAppointment s1 e1 s2 e2 = sixWayAppointment s2 e2 s1 e1 := by
  rw [sixWay_eq_classic s1 e1 s2 e2 h1 h2, sixWay_eq_classic s2 e2 s1 e1 h2 h1]
  unfold classicOverlap
  rw [Bool.and_comm]

/-- C6 witness: symmetry instantiated at 08:00-08:30 and 08:15-08:45. -/
theorem c6_overlap_symmetric_witness :
    (480 < 510 ∧ 495 < 525) ∧
      sixWayAppointment 480 510 495 525 = sixWayAppointment 495 525 480 510 :=
  ⟨⟨by decide, by decide⟩, c6_overlap_symmetric 480 510 495 525 (by decide) (by decide)⟩

/-- C7: `isValidRut` accepts exactly the strings satisfying the
specification: the shape `^\d{7,}-[\dKk]$`, a numeric portion of at
least 1,000,000, and the weighted modulo-11 check digit (10 mapped to
`K`, 11 mapped to `0`), compared case-insensitively on `K`. -/
theorem c7_isValidRut_spec (s : String) : isValidRut s = rutSpecValid s := by
  unfold isValidRut rutSpecValid rutShapeTest
  rcases hsp : splitOnDash s.data with _ | ⟨d, _ | ⟨v, _ | ⟨x, rest⟩⟩⟩
  · simp [hsp]
  · simp [hsp]
  · simp only [hsp]
    by_cases hA : (decide (7 ≤ d.length) && d.all Char.isDigit &&
        (v.length == 1) && v.all isRutVerifierChar) = true
    · simp only [hA, if_true]
      by_cases hlt : digitsToNat d < 1000000
      · have hnge : ¬ (1000000 ≤ digitsToNat d) := by omega
        simp [hlt, hnge]
      · have hge : (1000000 ≤ digitsToNat d) := by omega
        rw [if_neg hlt]
        have hd2 : decide (1000000 ≤ digitsToNat d) = true := decide_eq_true hge
        rw [hd2, Bool.true_and, Bool.true_and]
        rw [rutSum_eq_spec, rut_digit_mapping]
        have hrw : (if (11 - rutSpecSum d % 11 : Nat) == 10 then "K"
            else if (11 - rutSpecSum d % 11 : Nat) == 11 then "0"
            else toString (11 - rutSpecSum d % 11)) = rutSpecCheckDigit d := rfl
        rw [hrw, Bool.eq_iff_iff, beq_iff_eq, beq_iff_eq]
        exact eq_comm
    · simp only [Bool.not_eq_true] at hA
      simp [hA]
  · simp [hsp]

theorem apptUpdateValidate_confirmed_false_not_ok (db : ClinicDB)
    (today : Date) (body : AppointmentUpdateBody) (old : AppointmentFields)
    (h : body.confirmed = some false) :
    patientsAppointmentUpdateValidate db today body old ≠ VResult.ok := by
  cases h1 : dateFieldCheck today body.date with
  | error st m => simp [patientsAppointmentUpdateValidate, h1]
  | ok =>
      cases h2 : descriptionFieldCheck body.description with
      | error st m => simp [patientsAppointmentUpdateValidate, h1, h2]
      | ok =>
          cases h3 : timeSlotIdFieldCheck db.slots body.timeSlotId with
          | error st m => simp [patientsAppointmentUpdateValidate, h1, h2, h3]
          | ok =>
              simp [patientsAppointmentUpdateValidate, h1, h2, h3, h,
                confirmedFieldCheck]

/-- C3 counterexample: an already-confirmed appointment, patched with
the payload `{confirmed: true}` and nothing else, passes validation
and the update changes no column, so the handler answers 304, not the
409 the claim requires for a repeated `true`. -/
theorem c3_confirm_true_again_304 :
    (⟨⟨2024, 1, 1⟩, 1, "checkup", true⟩ : AppointmentFields).confirmed = true ∧
    patientsUpdateAppointmentStatus ⟨[], [], []⟩ ⟨2023, 12, 25⟩
        ⟨⟨2024, 1, 1⟩, 1, "checkup", true⟩ ⟨none, none, none, some true⟩ = 304 ∧
    (304 : Nat) ≠ 409 := by
  decide

/-- C3 (amended): an explicit `confirmed: false` in an update is
always rejected, with a 409 conflict rather than a 400 validation
error; any accepted update of a confirmed appointment leaves
`confirmed` true, so no sequence of updates moves it from true back to
false; but a repeated `confirmed: true` on an already confirmed
appointment passes validation, and when nothing else changes the
handler answers 304, not 409. -/
theorem c3_confirmed_monotonic (db : ClinicDB) (today : Date)
    (old : AppointmentFields) (body : AppointmentUpdateBody)
    (hold : old.confirmed = true) :
    confirmedFieldCheck (some false) =
      VResult.error 409
        "Appointment confirmed status can only be changed from false to true." ∧
    (body.confirmed = some false →
      patientsAppointmentUpdateValidate db today body old ≠ VResult.ok) ∧
    (patientsAppointmentUpdateValidate db today body old = VResult.ok →
      (applyAppointmentUpdate old body).confirmed = true) ∧
    patientsUpdateAppointmentStatus db today old ⟨none, none, none, some true⟩ = 304 := by
  refine ⟨rfl,
    fun h => apptUpdateValidate_confirmed_false_not_ok db today body old h,
    ?_, ?_⟩
  · intro hok
    rcases hc : body.confirmed with _ | b
    · simp [applyAppointmentUpdate, hc, hold]
    · cases b
      · exact absurd hok (apptUpdateValidate_confirmed_false_not_ok db today body old hc)
      · simp [applyAppointmentUpdate, hc]
  · have hval : patientsAppointmentUpdateValidate db today
        ⟨none, none, none, some true⟩ old = VResult.ok := rfl
    have happ : applyAppointmentUpdate old ⟨none, none, none, some true⟩ = old := by
      obtain ⟨d0, t0, s0, c0⟩ := old
      simp only [AppointmentFields.mk.injEq] at hold ⊢
      simp [applyAppointmentUpdate, hold]
    unfold patientsUpdateAppointmentStatus
    rw [hval, happ]
    simp

/-- C3 witness: the amended statement instantiated at a confirmed
appointment and the payload `{confirmed: false}`. -/
theorem c3_confirmed_monotonic_witness :
    (⟨⟨2024, 1, 1⟩, 1, "x", true⟩ : AppointmentFields).confirmed = true ∧
    (confirmedFieldCheck (some false) =
      VResult.error 409
        "Appointment confirmed status can only be changed from false to true." ∧
    ((⟨none, none, none, some false⟩ : AppointmentUpdateBody).confirmed = some false →
      patientsAppointmentUpdateValidate ⟨[], [], []⟩ ⟨2023, 12, 25⟩
        ⟨none, none, none, some false⟩ ⟨⟨2024, 1, 1⟩, 1, "x", true⟩ ≠ VResult.ok) ∧
    (patientsAppointmentUpdateValidate ⟨[], [], []⟩ ⟨2023, 12, 25⟩
        ⟨none, none, none, some false⟩ ⟨⟨2024, 1, 1⟩, 1, "x", true⟩ = VResult.ok →
      (applyAppointmentUpdate ⟨⟨2024, 1, 1⟩, 1, "x", true⟩
        ⟨none, none, none, some false⟩).confirmed = true) ∧
    patientsUpdateAppointmentStatus ⟨[], [], []⟩ ⟨2023, 12, 25⟩
      ⟨⟨2024, 1, 1⟩, 1, "x", true⟩ ⟨none, none, none, some true⟩ = 304) :=
  ⟨by decide,
    c3_confirmed_monotonic ⟨[], [], []⟩ ⟨2023, 12, 25⟩
      ⟨⟨2024, 1, 1⟩, 1, "x", true⟩ ⟨none, none, none, some false⟩ (by decide)⟩

/-- C8: on the medic self-scoped pipeline, a valid Medic token whose
rut differs from the path rut yields 401 with the state unchanged; an
Admin token bypasses the identity check and reaches the handler; a
missing token, an absent or malformed Authorization header, an
unregistered token, or a token of a role outside the required set all
yield 401 with the state unchanged before the handler runs. -/
theorem c8_authorization_gate {σ : Type} (reg : List TokenData)
    (pathRut : String) (header : Option String)
    (handler : TokenData → σ → Nat × σ) (st : σ) :
    (∀ tok, getToken reg header = some tok → tok.type = TokenType.medic →
      tok.rut ≠ pathRut → isValidRut pathRut = true →
      guardedMedicSelfEndpoint reg pathRut header handler st = (401, st)) ∧
    (∀ tok, getToken reg header = some tok → tok.type = TokenType.admin →
      isValidRut pathRut = true →
      guardedMedicSelfEndpoint reg pathRut header handler st = handler tok st) ∧
    (getToken reg header = none →
      guardedMedicSelfEndpoint reg pathRut header handler st = (401, st)) ∧
    (header = none → getToken reg header = none) ∧
    (∀ h, header = some h → bearerShapeTest h = false →
      getToken reg header = none) ∧
    (∀ h, header = some h → getTokenData reg (String.mk (h.data.drop 7)) = none →
      getToken reg header = none) ∧
    (∀ tok, getToken reg header = some tok → tok.type = TokenType.patient →
      guardedMedicSelfEndpoint reg pathRut header handler st = (401, st)) := by
  refine ⟨?_, ?_, ?_, ?_, ?_, ?_, ?_⟩
  · intro tok hgt htype hrut hvalid
    unfold guardedMedicSelfEndpoint
    rw [hgt, hvalid]
    simp [htype, medicEndpointRoles, hrut]
  · intro tok hgt htype hvalid
    unfold guardedMedicSelfEndpoint
    rw [hgt, hvalid]
    simp [htype, medicEndpointRoles]
  · intro hnone
    unfold guardedMedicSelfEndpoint
    rw [hnone]
  · intro hh
    subst hh
    rfl
  · intro h hh hshape
    subst hh
    simp [getToken, hshape]
  · intro h hh hdata
    subst hh
    by_cases hs : bearerShapeTest h = true
    · simp [getToken, hs, hdata]
    · have hs2 : bearerShapeTest h = false := by
        revert hs; cases bearerShapeTest h <;> simp
      simp [getToken, hs2]
  · intro tok hgt htype
    unfold guardedMedicSelfEndpoint
    rw [hgt]
    simp [htype, medicEndpointRoles]

/-- C8 witness: a registered Medic token for rut `11111111-1` calling
the pipeline for path rut `12345678-5` is answered 401 with the state
unchanged. -/
theorem c8_authorization_gate_witness :
    getToken [⟨tokenA, "11111111-1", TokenType.medic⟩]
        (some ("Bearer " ++ tokenA)) =
      some ⟨tokenA, "11111111-1", TokenType.medic⟩ ∧
    ("11111111-1" : String) ≠ "12345678-5" ∧
    isValidRut "12345678-5" = true ∧
    guardedMedicSelfEndpoint [⟨tokenA, "11111111-1", TokenType.medic⟩]
        "12345678-5" (some ("Bearer " ++ tokenA))
        (fun _ (s : Nat) => (204, s)) 0 = (401, 0) :=
  ⟨by decide, by decide, by decide,
    (c8_authorization_gate [⟨tokenA, "11111111-1", TokenType.medic⟩]
        "12345678-5" (some ("Bearer " ++ tokenA))
        (fun _ (s : Nat) => (204, s)) 0).1
      ⟨tokenA, "11111111-1", TokenType.medic⟩
      (by decide) rfl (by decide) (by decide)⟩

theorem pickFreshToken_spec (l : List String)
    (reg : List (String × TokenType))
    (h : ∃ c ∈ l, tokensHas reg c = false) :
    ∃ t, pickFreshToken l reg = some t ∧ tokensHas reg t = false := by
  induction l with
  | nil => simp at h
  | cons a rest ih =>
      by_cases ha : tokensHas reg a = true
      · have h2 : ∃ c ∈ rest, tokensHas reg c = false := by
          rcases h with ⟨c, hc, hcf⟩
          rcases List.mem_cons.mp hc with rfl | hm
          · rw [ha] at hcf; cases hcf
          · exact ⟨c, hm, hcf⟩
        rcases ih h2 with ⟨t, ht, htf⟩
        exact ⟨t, by simp [pickFreshToken, ha, ht], htf⟩
      · have ha2 : tokensHas reg a = false := by
          revert ha; cases tokensHas reg a <;> simp
        exact ⟨a, by simp [pickFreshToken, ha2], ha2⟩

theorem getTokenType_revoke_self (t : String) (s : TokenState)
    (h : doesTokenExist s t = true) :
    getTokenType (revokeToken t s) t = none := by
  unfold revokeToken
  rw [if_pos h]
  unfold getTokenType
  have hfind : (s.registry.filter (fun e => !(e.1 == t))).find?
      (fun e => e.1 == t) = none := by
    rw [List.find?_eq_none]
    intro x hx
    have hx2 := (List.mem_filter.mp hx).2
    simp only [Bool.not_eq_true'] at hx2
    simp [hx2]
  simp [hfind]

theorem revoke_persons_cleared (t : String) (s : TokenState)
    (h : doesTokenExist s t = true) :
    ∀ q ∈ (revokeToken t s).persons, q.sessionToken ≠ some t := by
  intro q hq
  unfold revokeToken at hq
  rw [if_pos h] at hq
  rcases List.mem_map.mp hq with ⟨q0, hq0, rfl⟩
  by_cases hs : q0.sessionToken == some t
  · simp [hs]
  · simp only [beq_iff_eq] at hs
    simp [hs]

theorem revoke_noop (t : String) (s : TokenState)
    (h : tokensHas s.registry t = false) :
    revokeToken t s = s := by
  unfold revokeToken doesTokenExist
  simp [h]

/-- C9: issuing a token returns a value absent from the registry
before the call and registers it under the classified role of the subject,
so a subsequent lookup returns that role; revoking it afterwards makes
the lookup return `none` and clears every persisted session token
holding the value; revoking an unregistered token changes nothing. -/
theorem c9_token_lifecycle (candidates : List String) (id : Nat)
    (st : TokenState) (p : Person)
    (hp : st.persons.find? (fun q => q.id == id) = some p)
    (hfresh : ∃ c ∈ candidates, tokensHas st.registry c = false) :
    (∃ token st2, generateToken candidates id st = some (token, st2) ∧
      tokensHas st.registry token = false ∧
      getTokenType st2 token = some (personTokenType p) ∧
      getTokenType (revokeToken token st2) token = none ∧
      (∀ q ∈ (revokeToken token st2).persons, q.sessionToken ≠ some token)) ∧
    (∀ (t : String) (s0 : TokenState), tokensHas s0.registry t = false →
      revokeToken t s0 = s0) := by
  constructor
  · rcases pickFreshToken_spec candidates st.registry hfresh with
      ⟨token, hpick, hfreshT⟩
    refine ⟨token,
      ⟨(token, personTokenType p) :: st.registry,
        st.persons.map fun q =>
          if q.id == id then { q with sessionToken := some token } else q⟩,
      ?_, hfreshT, ?_, ?_, ?_⟩
    · simp [generateToken, hpick, hp]
    · simp [getTokenType, List.find?]
    · exact getTokenType_revoke_self token _ (by simp [doesTokenExist, tokensHas])
    · exact revoke_persons_cleared token _ (by simp [doesTokenExist, tokensHas])
  · exact fun t s0 h => revoke_noop t s0 h

/-- C9 witness: the lifecycle instantiated on a store holding one
patient with id 1 and an empty registry, with the candidate stream
`["tkn1"]`. -/
theorem c9_token_lifecycle_witness :
    ((⟨[], [⟨1, true, none, none⟩]⟩ : TokenState).persons.find?
        (fun q => q.id == 1) = some ⟨1, true, none, none⟩) ∧
    (∃ c ∈ ["tkn1"],
      tokensHas (⟨[], [⟨1, true, none, none⟩]⟩ : TokenState).registry c = false) ∧
    (∃ token st2,
      generateToken ["tkn1"] 1 ⟨[], [⟨1, true, none, none⟩]⟩ = some (token, st2) ∧
      getTokenType st2 token = some (personTokenType ⟨1, true, none, none⟩)) := by
  have h := c9_token_lifecycle ["tkn1"] 1 ⟨[], [⟨1, true, none, none⟩]⟩
    ⟨1, true, none, none⟩ rfl ⟨"tkn1", by simp, rfl⟩
  rcases h.1 with ⟨token, st2, hgen, _, hlook, _, _⟩
  exact ⟨rfl, ⟨"tkn1", by simp, rfl⟩, ⟨token, st2, hgen, hlook⟩⟩

theorem validateFields_pre_passes (object : String → JSValue)
    (pre rest : List (String × FieldValidator))
    (hpre : ∀ p ∈ pre, entryPasses object p) :
    validateFields object (pre ++ rest) = validateFields object rest := by
  induction pre with
  | nil => rfl
  | cons hd tl ih =>
      obtain ⟨k, e⟩ := hd
      rcases hpre ⟨k, e⟩ (by simp) with ⟨hr, hv⟩
      dsimp only at hr hv
      simp only [List.cons_append, validateFields, hr, Bool.false_eq_true,
        if_false, hv]
      exact ih fun p hp => hpre p (by simp [hp])

/-- C10: a field whose validator entry is marked required is rejected
with `400 Missing <key>.` whenever the supplied value is falsy under
JavaScript truthiness, which counts the present values 0, the empty
string and `false` as missing; fields are checked in declaration order
and the first failure is returned. -/
theorem c10_required_falsy (pre post : List (String × FieldValidator))
    (k : String) (e : FieldValidator)
    (g : (String → JSValue) → VResult) (object : String → JSValue)
    (hreq : e.required = true) (hfalsy : truthy (object k) = false)
    (hpre : ∀ p ∈ pre, entryPasses object p) :
    runValidator (pre ++ (k, e) :: post) g object =
      VResult.error 400 ("Missing " ++ k ++ ".") ∧
    truthy (JSValue.num 0) = false ∧
    truthy (JSValue.str "") = false ∧
    truthy (JSValue.bool false) = false := by
  refine ⟨?_, by decide, by decide, by decide⟩
  unfold runValidator
  rw [validateFields_pre_passes object pre ((k, e) :: post) hpre]
  simp [validateFields, hreq, hfalsy]

/-- C10 witness: a passing optional field followed by a required
`phone` field supplied as the number 0 is reported as
`Missing phone.`. -/
theorem c10_required_falsy_witness :
    (∀ p ∈ ([("name", ⟨false, fun _ _ => VResult.ok⟩)] :
        List (String × FieldValidator)),
      entryPasses (fun k => if k == "phone" then JSValue.num 0 else JSValue.str "x") p) ∧
    (⟨true, fun _ _ => VResult.ok⟩ : FieldValidator).required = true ∧
    truthy ((fun k => if k == "phone" then JSValue.num 0 else JSValue.str "x") "phone") = false ∧
    runValidator
      ([("name", ⟨false, fun _ _ => VResult.ok⟩)] ++
        ("phone", ⟨true, fun _ _ => VResult.ok⟩) :: [])
      (fun _ => VResult.ok)
      (fun k => if k == "phone" then JSValue.num 0 else JSValue.str "x") =
      VResult.error 400 ("Missing " ++ "phone" ++ ".") := by
  have hpre : ∀ p ∈ ([("name", ⟨false, fun _ _ => VResult.ok⟩)] :
      List (String × FieldValidator)),
      entryPasses (fun k => if k == "phone" then JSValue.num 0 else JSValue.str "x") p := by
    intro p hp
    rcases List.mem_singleton.mp hp with rfl
    exact ⟨rfl, rfl⟩
  refine ⟨hpre, rfl, by decide, ?_⟩
  exact (c10_required_falsy [("name", ⟨false, fun _ _ => VResult.ok⟩)] []
    "phone" ⟨true, fun _ _ => VResult.ok⟩ (fun _ => VResult.ok)
    (fun k => if k == "phone" then JSValue.num 0 else JSValue.str "x")
    rfl (by decide) hpre).1

end Clinic
